import Mathlib

/-!
Verification of the CloudFileManager ingestion pipeline.

This file gives a shallow embedding, in Lean 4, of the core logic of the
CloudFileManager repository and proves properties of it:

* `cloud_file_manager/security/security_service.py` — `validate_file`,
  `scan_file` (with the `try/except` around the scan backend made explicit
  as an `Except` input);
* `cloud_file_manager/metadata/metadata_extractor.py` — MIME dispatch,
  image/document pipelines with the AWS backends modelled as `Except`
  values, and the regex based entity extraction (the Python regexes are
  compiled by hand into a small backtracking matcher with Python's
  greedy, leftmost preference);
* `cloud_file_manager/search/search_service.py` — relevance scoring and
  the stable descending sort (scores are exact in Python floats, so they
  are modelled with `ℚ`);
* `cloud_file_manager/api/routes.py` — the `POST /files` upload handler,
  with the storage / metadata / extraction collaborators abstracted into
  an environment record and the store invocation recorded in the result;
* `CFM/virus_scan_lambda.py` — `handle_infected_file`, with the S3/SNS
  calls modelled as `Except` outcomes and the attempted operations
  recorded in order.

Machine integers are modelled with `Nat`/`Int` (Python integers are
unbounded, so no wrap-around is needed).  Python `str.lower` is modelled
on the ASCII range, which is the range exercised by every string the
code compares against.
-/

namespace CFM

/-! ## Python string helpers -/

/-- ASCII lowering of one character, as Python `str.lower` acts on the
ASCII range (other characters are returned unchanged). -/
def lowerChar (c : Char) : Char :=
  if 65 ≤ c.toNat ∧ c.toNat ≤ 90 then Char.ofNat (c.toNat + 32) else c

/-- Python `s.lower()` restricted to the ASCII range. -/
def pyLower (s : String) : String :=
  String.mk (s.toList.map lowerChar)

/-- Does `needle` occur at the head of `hay`? -/
def headMatch : List Char → List Char → Bool
  | [], _ => true
  | _ :: _, [] => false
  | a :: as, b :: bs => a == b && headMatch as bs

/-- Does `needle` occur anywhere in `hay`?  (Python `needle in hay`.) -/
def subMatch (needle : List Char) : List Char → Bool
  | [] => headMatch needle []
  | c :: cs => headMatch needle (c :: cs) || subMatch needle cs

/-- Python substring containment `needle in hay`. -/
def hasSub (needle hay : String) : Bool :=
  subMatch needle.toList hay.toList

/-- Python `s.startswith(pre)`. -/
def pyStartsWith (s pre : String) : Bool :=
  headMatch pre.toList s.toList

/-- Number of non-overlapping, left-to-right occurrences of `needle` in
`hay`: the length of `re.findall(re.escape(needle), hay)`.  An empty
needle matches at every position plus once at the end, as in Python. -/
def countOccur (needle hay : String) : Nat :=
  if needle.toList.isEmpty then hay.toList.length + 1
  else go needle.toList hay.toList hay.toList.length
where
  go (n : List Char) : List Char → Nat → Nat
    | _, 0 => 0
    | [], _ + 1 => 0
    | c :: cs, fuel + 1 =>
      if headMatch n (c :: cs) then 1 + go n ((c :: cs).drop n.length) fuel
      else go n cs fuel

/-- The characters after the final `.` of `s` (Python
`s.split(".")[-1]` when `s` contains a dot). -/
def afterLastDot (s : String) : String :=
  String.mk ((s.toList.reverse.takeWhile (fun c => c ≠ '.')).reverse)

/-- Python whitespace test for the characters produced by `\s`
(space, tab, newline, carriage return, form feed, vertical tab). -/
def isPySpace (c : Char) : Bool :=
  c == ' ' || c == '\t' || c == '\n' || c == '\x0d' || c == '\x0c' || c == '\x0b'

mutual

/-- Accumulate the current segment (reversed in `acc`); a whitespace
character closes the segment and enters skip mode. -/
def wsGo : List Char → List Char → List (List Char)
  | [], acc => [acc]
  | c :: cs, acc =>
    if isPySpace c then acc :: wsSkip cs else wsGo cs (c :: acc)

/-- Skip the rest of a whitespace run; the end of input yields the
trailing empty segment. -/
def wsSkip : List Char → List (List Char)
  | [] => [[]]
  | c :: cs => if isPySpace c then wsSkip cs else wsGo cs [c]

end

/-- Python `re.split(r"\s+", s)`: segments between maximal whitespace
runs, with an empty segment when the string starts or ends with
whitespace (and the single segment `[""]` for the empty string). -/
def pySplitWS (s : String) : List String :=
  (wsGo s.toList []).map (fun l => String.mk l.reverse)

/-! ## Security service (`security_service.py`) -/

/-- Result of file validation (`ValidationResult`). -/
structure ValidationResult where
  is_valid : Bool
  message : String := ""
  deriving DecidableEq, Repr

/-- Result of virus scanning (`ScanResult`); `__post_init__` replaces a
missing threat list by `[]`, so the field is total here. -/
structure ScanResult where
  is_clean : Bool
  threats : List String := []
  message : String := ""
  deriving DecidableEq, Repr

/-- The MIME allow-list `ALLOWED_MIME_TYPES`. -/
def ALLOWED_MIME_TYPES : List String :=
  ["application/pdf",
   "application/msword",
   "application/vnd.openxmlformats-officedocument.wordprocessingml.document",
   "application/vnd.ms-excel",
   "application/vnd.openxmlformats-officedocument.spreadsheetml.sheet",
   "application/vnd.ms-powerpoint",
   "application/vnd.openxmlformats-officedocument.presentationml.presentation",
   "text/plain",
   "text/csv",
   "image/jpeg",
   "image/png",
   "image/gif",
   "image/svg+xml",
   "image/webp",
   "application/zip",
   "application/x-rar-compressed"]

/-- `MAX_FILE_SIZE = 5 * 1024 * 1024 * 1024` (5 GiB). -/
def MAX_FILE_SIZE : Int := 5 * 1024 * 1024 * 1024

/-- The extension deny-list `SUSPICIOUS_EXTENSIONS`. -/
def SUSPICIOUS_EXTENSIONS : List String :=
  ["exe", "bat", "cmd", "sh", "js", "vbs", "ps1", "jar", "msi", "com", "scr"]

/-- The extension computed by `validate_file`:
`file_name.split(".")[-1].lower() if "." in file_name else ""`. -/
def fileExtension (file_name : String) : String :=
  if hasSub "." file_name then pyLower (afterLastDot file_name) else ""

/-- `SecurityService.validate_file`. -/
def validate_file (file_name : String) (file_size : Int) (mime_type : String) :
    ValidationResult :=
  if file_size > MAX_FILE_SIZE then
    { is_valid := false, message := "File size exceeds maximum allowed (5GB)" }
  else if ¬ (ALLOWED_MIME_TYPES.contains mime_type) then
    { is_valid := false, message := "File type not allowed: " ++ mime_type }
  else if SUSPICIOUS_EXTENSIONS.contains (fileExtension file_name) then
    { is_valid := false,
      message := "File extension not allowed: ." ++ fileExtension file_name }
  else
    { is_valid := true }

/-! ### UTF-8 decoding with `errors="ignore"`

`scan_file` runs `file_bytes[:100].decode("utf-8", errors="ignore")`.
The decoder below follows CPython's UTF-8 acceptor (overlong forms,
surrogates and values above `0x10FFFF` rejected) and, on an ill-formed
sequence, skips its maximal valid subpart and continues at the next
byte, which is what `errors="ignore"` does. -/

/-- Is `b` a UTF-8 continuation byte? -/
def isContByte (b : Nat) : Bool := 0x80 ≤ b && b ≤ 0xBF

/-- Valid range for the second byte of a three-byte sequence headed by
`b1` (excludes overlong forms and surrogates). -/
def valid3Second (b1 b2 : Nat) : Bool :=
  if b1 == 0xE0 then 0xA0 ≤ b2 && b2 ≤ 0xBF
  else if b1 == 0xED then 0x80 ≤ b2 && b2 ≤ 0x9F
  else isContByte b2

/-- Valid range for the second byte of a four-byte sequence headed by
`b1` (excludes overlong forms and values above `0x10FFFF`). -/
def valid4Second (b1 b2 : Nat) : Bool :=
  if b1 == 0xF0 then 0x90 ≤ b2 && b2 ≤ 0xBF
  else if b1 == 0xF4 then 0x80 ≤ b2 && b2 ≤ 0x8F
  else isContByte b2

/-- One step of the decoder, with fuel bounding the recursion. -/
def utf8Go : Nat → List Nat → List Char
  | 0, _ => []
  | _ + 1, [] => []
  | fuel + 1, b :: rest =>
    if b < 0x80 then Char.ofNat b :: utf8Go fuel rest
    else if 0xC2 ≤ b && b ≤ 0xDF then
      match rest with
      | b2 :: rest2 =>
        if isContByte b2 then
          Char.ofNat ((b - 0xC0) * 64 + (b2 - 0x80)) :: utf8Go fuel rest2
        else utf8Go fuel rest
      | [] => []
    else if 0xE0 ≤ b && b ≤ 0xEF then
      match rest with
      | b2 :: rest2 =>
        if valid3Second b b2 then
          match rest2 with
          | b3 :: rest3 =>
            if isContByte b3 then
              Char.ofNat ((b - 0xE0) * 4096 + (b2 - 0x80) * 64 + (b3 - 0x80)) ::
                utf8Go fuel rest3
            else utf8Go fuel rest2
          | [] => []
        else utf8Go fuel rest
      | [] => []
    else if 0xF0 ≤ b && b ≤ 0xF4 then
      match rest with
      | b2 :: rest2 =>
        if valid4Second b b2 then
          match rest2 with
          | b3 :: rest3 =>
            if isContByte b3 then
              match rest3 with
              | b4 :: rest4 =>
                if isContByte b4 then
                  Char.ofNat ((b - 0xF0) * 262144 + (b2 - 0x80) * 4096 +
                    (b3 - 0x80) * 64 + (b4 - 0x80)) :: utf8Go fuel rest4
                else utf8Go fuel rest3
              | [] => []
            else utf8Go fuel rest2
          | [] => []
        else utf8Go fuel rest
      | [] => []
    else utf8Go fuel rest

/-- `bytes.decode("utf-8", errors="ignore")`. -/
def utf8DecodeIgnore (bs : List Nat) : String :=
  String.mk (utf8Go bs.length bs)

/-- The body of `SecurityService.scan_file`, with the outcome of the
`try` block's backend work (`file_bytes[:100].decode(...)`) passed in as
an `Except`: a raised exception takes the `except` branch, which returns
the fail-closed result. -/
def scan_file_try (decoded : Except String String) : ScanResult :=
  match decoded with
  | .error e =>
    { is_clean := false, threats := ["Scan failed"],
      message := "Could not scan file: " ++ e }
  | .ok file_start =>
    if hasSub "VIRUS" file_start then
      { is_clean := false, threats := ["Simulated virus detected"],
        message := "File contains malicious content" }
    else
      { is_clean := true }

/-- `SecurityService.scan_file` on concrete bytes: slicing and decoding
with `errors="ignore"` cannot raise, so the `try` block succeeds. -/
def scan_file (file_bytes : List Nat) : ScanResult :=
  scan_file_try (.ok (utf8DecodeIgnore (file_bytes.take 100)))

/-! ## Data model (`models/file_models.py`)

Confidence values are exact multiples of `0.1`/`0.5` well inside the
range where the Python float arithmetic used on them is exact, so they
are modelled with `ℚ`. -/

/-- `EntityType`. -/
inductive EntityType where
  | PERSON | ORGANIZATION | LOCATION | DATE | PHONE_NUMBER | EMAIL | URL | OTHER
  deriving DecidableEq, Repr

/-- `Entity`. -/
structure Entity where
  text : String
  type : EntityType
  confidence : ℚ
  deriving DecidableEq, Repr

/-- `BoundingBox`. -/
structure BoundingBox where
  top : ℚ
  left : ℚ
  width : ℚ
  height : ℚ
  deriving DecidableEq, Repr

/-- `DetectedObject`. -/
structure DetectedObject where
  name : String
  confidence : ℚ
  bounding_box : Option BoundingBox := none
  deriving DecidableEq, Repr

/-- `ImageMetadata`. -/
structure ImageMetadata where
  width : Option Int := none
  height : Option Int := none
  detected_objects : List DetectedObject := []
  dominant_colors : List String := []
  contains_text : Bool := false
  extracted_image_text : Option String := none
  deriving DecidableEq, Repr

/-- `Table`. -/
structure Table where
  id : String
  page_number : Int
  headers : List String := []
  rows : List (List String) := []
  deriving DecidableEq, Repr

/-- `DocumentMetadata`; `key_value_pairs` is a Python dict, modelled as
an insertion-ordered association list with overwrite-in-place update. -/
structure DocumentMetadata where
  page_count : Option Int := none
  document_type : Option String := none
  key_value_pairs : List (String × String) := []
  tables : List Table := []
  deriving DecidableEq, Repr

/-- `FileMetadata`. -/
structure FileMetadata where
  content_type : String
  extracted_text : Option String := none
  entities : List Entity := []
  categories : List String := []
  image_data : Option ImageMetadata := none
  document_data : Option DocumentMetadata := none
  custom_attributes : List (String × String) := []
  deriving DecidableEq, Repr

/-- `FileModel`, restricted to the fields the pipeline logic reads and
writes (`id`/`uploaded_at`/`versions` defaults are produced by factories
external to the logic under proof). -/
structure FileModel where
  name : String
  size : Int
  mime_type : String
  uploaded_at : String := ""
  path : String
  metadata : FileMetadata
  tags : List String := []
  deriving DecidableEq, Repr

/-! ## Regex matching (`re` on the four entity patterns)

The patterns in `_extract_entities_from_text` are sequences of
character-class repetitions, plus one `(?:...)+` group in the URL
pattern.  They are compiled by hand into the atom lists below and run by
a backtracking matcher that mirrors Python's preference order: a greedy
repetition tries its largest count first, and a group `+` prefers one
more iteration before moving on, with full backtracking across the
sequence.  `re.finditer` then takes, at the leftmost matching position,
the backtracking-preferred match, and resumes after it. -/

/-- One regex atom: a character class repeated between `lo` and `hi`
times (`hi = none` meaning unbounded), or the one group shape occurring
in the URL pattern, a dot followed by a non-empty class run, the whole
group repeated at least once (`(?:\.[class]+)+`). -/
inductive RAtom where
  | cls (f : Char → Bool) (lo : Nat) (hi : Option Nat)
  | grpDotPlus (f : Char → Bool)

/-- Length of the maximal run of characters satisfying `f`. -/
def maxRun (f : Char → Bool) (s : List Char) : Nat :=
  (s.takeWhile f).length

/-- Try the continuation after consuming `n, n-1, ..., lo` characters,
largest first (greedy preference). -/
def tryFrom (lo : Nat) (s : List Char) (k : List Char → Option (List Char)) :
    Nat → Option (List Char)
  | 0 => k s
  | n + 1 =>
    match k (s.drop (n + 1)) with
    | some r => some r
    | none => if n + 1 ≤ lo then none else tryFrom lo s k n

/-- Match a sequence of atoms against `s`, calling `k` on the input
remaining after the sequence; returns the remainder chosen by the first
(in Python preference order) overall success: a greedy repetition tries
its largest count first, and a group prefers one more iteration before
moving on.  One unit of `fuel` is consumed per atom processed and per
group iteration — a group iteration consumes at least two characters —
so the fuel supplied by `matchAt` is always enough; exhausted fuel
returns no match. -/
def matchSeq : Nat → List RAtom → List Char → (List Char → Option (List Char)) →
    Option (List Char)
  | _, [], s, k => k s
  | 0, _ :: _, _, _ => none
  | fuel + 1, .cls f lo hi :: as, s, k =>
    let mr := maxRun f s
    let hiV := min (hi.getD mr) mr
    if lo ≤ hiV then
      tryFrom lo s (fun s2 => matchSeq fuel as s2 k) hiV
    else none
  | fuel + 1, .grpDotPlus f :: as, s, k =>
    match s with
    | [] => none
    | c :: rest =>
      if c == '.' then
        let mr := maxRun f rest
        if 1 ≤ mr then
          tryFrom 1 rest (fun s2 =>
            match matchSeq fuel (.grpDotPlus f :: as) s2 k with
            | some r => some r
            | none => matchSeq fuel as s2 k) mr
        else none
      else none

/-- The length of the preferred match of `atoms` at the head of `s`, if
any. -/
def matchAt (atoms : List RAtom) (s : List Char) : Option Nat :=
  match matchSeq ((atoms.length + 2) * (s.length + 2)) atoms s
      (fun s2 => some s2) with
  | some rem => some (s.length - rem.length)
  | none => none

/-- `re.finditer`: all non-overlapping matches, scanning left to right,
restarting after each match (advancing one position past an empty
match, as Python does). -/
def findIter (atoms : List RAtom) (s : List Char) : List (List Char) :=
  go s.length s
where
  go : Nat → List Char → List (List Char)
    | 0, _ => []
    | _ + 1, [] => []
    | fuel + 1, c :: cs =>
      match matchAt atoms (c :: cs) with
      | some 0 => [] :: go fuel cs
      | some (n + 1) => (c :: cs).take (n + 1) :: go fuel ((c :: cs).drop (n + 1))
      | none => go fuel cs

/-- `[a-zA-Z]`. -/
def isAsciiAlpha (c : Char) : Bool :=
  (65 ≤ c.toNat && c.toNat ≤ 90) || (97 ≤ c.toNat && c.toNat ≤ 122)

/-- `[0-9]`. -/
def isAsciiDigit (c : Char) : Bool := 48 ≤ c.toNat && c.toNat ≤ 57

/-- `[a-zA-Z0-9._%+-]`, the local part class of the email pattern. -/
def isEmailLocalChar (c : Char) : Bool :=
  isAsciiAlpha c || isAsciiDigit c || c == '.' || c == '_' || c == '%' ||
    c == '+' || c == '-'

/-- `[a-zA-Z0-9.-]`, the domain class of the email pattern. -/
def isEmailDomainChar (c : Char) : Bool :=
  isAsciiAlpha c || isAsciiDigit c || c == '.' || c == '-'

/-- `\w` (modelled on the ASCII range the code exercises). -/
def isWordChar (c : Char) : Bool :=
  isAsciiAlpha c || isAsciiDigit c || c == '_'

/-- `[\w.-]`. -/
def isWordDotDash (c : Char) : Bool :=
  isWordChar c || c == '.' || c == '-'

/-- The trailing class of the URL pattern. -/
def isUrlTailChar (c : Char) : Bool :=
  isWordChar c ||
    [('-' : Char), '.', '_', '~', ':', '/', '?', '#', '[', ']', '@', '!', '$',
      '&', Char.ofNat 39, '(', ')', '*', '+', ',', ';', '='].contains c

/-- `[a-zA-Z0-9._%+-]+@[a-zA-Z0-9.-]+\.[a-zA-Z]{2,}`. -/
def emailRE : List RAtom :=
  [.cls isEmailLocalChar 1 none,
   .cls (fun c => c == '@') 1 (some 1),
   .cls isEmailDomainChar 1 none,
   .cls (fun c => c == '.') 1 (some 1),
   .cls isAsciiAlpha 2 none]

/-- `\+?[0-9]{10,12}`. -/
def phoneRE : List RAtom :=
  [.cls (fun c => c == '+') 0 (some 1),
   .cls isAsciiDigit 10 (some 12)]

/-- `https?://[\w.-]+(?:\.[\w.-]+)+[\w\-._~:/?#[\]@!$&...;=]*` (the
trailing class is `isUrlTailChar`). -/
def urlRE : List RAtom :=
  [.cls (fun c => c == 'h') 1 (some 1),
   .cls (fun c => c == 't') 1 (some 1),
   .cls (fun c => c == 't') 1 (some 1),
   .cls (fun c => c == 'p') 1 (some 1),
   .cls (fun c => c == 's') 0 (some 1),
   .cls (fun c => c == ':') 1 (some 1),
   .cls (fun c => c == '/') 1 (some 1),
   .cls (fun c => c == '/') 1 (some 1),
   .cls isWordDotDash 1 none,
   .grpDotPlus isWordDotDash,
   .cls isUrlTailChar 0 none]

/-- The date pattern: `\d` one or two times, a separator (slash or
dash), `\d` one or two times, a separator, `\d` two to four times. -/
def dateRE : List RAtom :=
  [.cls isAsciiDigit 1 (some 2),
   .cls (fun c => c == '/' || c == '-') 1 (some 1),
   .cls isAsciiDigit 1 (some 2),
   .cls (fun c => c == '/' || c == '-') 1 (some 1),
   .cls isAsciiDigit 2 (some 4)]

/-- `MetadataExtractor._extract_entities_from_text`: run the four
patterns in order and append one entity per match, with the fixed
confidence constants. -/
def extractEntitiesFromText (text : String) : List Entity :=
  let l := text.toList
  ((findIter emailRE l).map
    (fun m => Entity.mk (String.mk m) .EMAIL (9 / 10))) ++
  ((findIter phoneRE l).map
    (fun m => Entity.mk (String.mk m) .PHONE_NUMBER (8 / 10))) ++
  ((findIter urlRE l).map
    (fun m => Entity.mk (String.mk m) .URL (9 / 10))) ++
  ((findIter dateRE l).map
    (fun m => Entity.mk (String.mk m) .DATE (7 / 10)))

/-! ## Metadata extractor (`metadata_extractor.py`)

The AWS Rekognition/Textract clients are external collaborators; each
pipeline's backend calls are modelled as one `Except` input carrying
either the response data or the raised exception.  The extractor's
dispatch and failure policy — the code under proof — is embedded
exactly: a `ClientError` is caught inside the pipeline, any other
exception escapes to the catch-all in `extract_metadata`. -/

/-- A Python exception, distinguishing `botocore` `ClientError` (caught
by the pipelines) from everything else (caught only by the top-level
handler of `extract_metadata`). -/
inductive PyExc where
  | clientError (msg : String)
  | otherError (msg : String)
  deriving DecidableEq, Repr

/-- One Rekognition label, with the bounding box of each instance
(`none` when the instance carries no `BoundingBox`). -/
structure RekLabel where
  name : String
  confidence : ℚ
  instanceBoxes : List (Option BoundingBox) := []
  deriving DecidableEq, Repr

/-- One Rekognition text detection. -/
structure TextDetection where
  detectedText : String
  isLine : Bool
  deriving DecidableEq, Repr

/-- The data returned by the two Rekognition calls of the image
pipeline. -/
structure RekognitionData where
  labels : List RekLabel := []
  textDetections : List TextDetection := []
  deriving DecidableEq, Repr

/-- One relationship entry of a Textract block. -/
structure BlockRel where
  relType : String
  ids : List String := []
  deriving DecidableEq, Repr

/-- One Textract block (fields the code reads; a missing `Text` is the
empty string, matching `block.get("Text", "")`, and a missing `Id` is
`""`, which Python treats as falsy exactly where the code tests it). -/
structure TBlock where
  blockType : String
  text : String := ""
  id : String := ""
  relationships : List BlockRel := []
  deriving DecidableEq, Repr

/-- The data returned by `textract.analyze_document`. -/
structure TextractData where
  blocks : List TBlock := []
  deriving DecidableEq, Repr

/-- Insert into a Python dict modelled as an insertion-ordered
association list: overwrite in place, else append. -/
def dictInsert (m : List (String × String)) (k v : String) :
    List (String × String) :=
  if m.any (fun p => p.1 == k) then
    m.map (fun p => if p.1 == k then (k, v) else p)
  else m ++ [(k, v)]

/-- `dict.get(k)` on the association-list model. -/
def dictGet (m : List (String × String)) (k : String) : Option String :=
  (m.find? (fun p => p.1 == k)).map Prod.snd

/-- The metadata built by the success path of
`_extract_image_metadata` from the Rekognition responses. -/
def imageMetadataOf (d : RekognitionData) : FileMetadata :=
  let detected_objects := d.labels.map (fun label =>
    { name := label.name, confidence := label.confidence,
      bounding_box := label.instanceBoxes.head?.join : DetectedObject })
  let extracted_text :=
    String.intercalate "\n"
      ((d.textDetections.filter (fun t => t.isLine)).map
        (fun t => t.detectedText))
  let categories :=
    (d.labels.filter (fun label => label.confidence > 90)).map
      (fun label => label.name)
  let entities := extractEntitiesFromText extracted_text
  let image_metadata : ImageMetadata :=
    { detected_objects := detected_objects,
      contains_text := extracted_text ≠ "",
      extracted_image_text := some extracted_text }
  { content_type := "image",
    extracted_text := some extracted_text,
    entities := entities,
    categories := categories,
    image_data := some image_metadata }

/-- `MetadataExtractor._extract_image_metadata`, with the Rekognition
calls' outcome passed in.  A `ClientError` is caught here and degrades
to `FileMetadata(content_type="image")`; any other exception
propagates. -/
def extractImageMetadata (backend : Except PyExc RekognitionData) :
    Except PyExc FileMetadata :=
  match backend with
  | .error (.clientError _) => .ok { content_type := "image" }
  | .error (.otherError m) => .error (.otherError m)
  | .ok d => .ok (imageMetadataOf d)

/-- The `key_id`/`value_id` pair selected from one `KEY_VALUE_SET`
block: the loop keeps the first id of the last `CHILD` relationship and
of the last `VALUE` relationship whose id list is non-empty, then tests
both for Python truthiness (`if key_id and value_id`). -/
def kvIdsOf (b : TBlock) : Option (String × String) :=
  let key_id := b.relationships.foldl (fun acc r =>
    if r.relType == "CHILD" then
      match r.ids.head? with
      | some i => some i
      | none => acc
    else acc) none
  let value_id := b.relationships.foldl (fun acc r =>
    if r.relType == "VALUE" then
      match r.ids.head? with
      | some i => some i
      | none => acc
    else acc) none
  match key_id, value_id with
  | some k, some v => if k ≠ "" ∧ v ≠ "" then some (k, v) else none
  | _, _ => none

/-- `MetadataExtractor._determine_document_type`. -/
def determineDocumentType (text : String)
    (key_value_pairs : List (String × String)) : String :=
  let text_lower := pyLower text
  if hasSub "invoice" text_lower ||
      key_value_pairs.any (fun p => hasSub "invoice" (pyLower p.1)) then
    "invoice"
  else if hasSub "receipt" text_lower ||
      key_value_pairs.any (fun p =>
        hasSub "total" (pyLower p.1) && hasSub "amount" (pyLower p.1)) then
    "receipt"
  else if hasSub "contract" text_lower || hasSub "agreement" text_lower then
    "contract"
  else if hasSub "resume" text_lower || hasSub "cv" text_lower ||
      hasSub "curriculum vitae" text_lower then
    "resume"
  else "document"

/-- The metadata built by the success path of
`_extract_document_metadata` from the Textract response. -/
def documentMetadataOf (d : TextractData) : FileMetadata :=
    let blocks := d.blocks
    let extracted_text :=
      String.intercalate "\n"
        ((blocks.filter (fun b => b.blockType == "LINE")).map (fun b => b.text))
    let key_map := (blocks.filter (fun b => b.blockType == "KEY")).foldl
      (fun m b => dictInsert m b.id b.text) []
    let value_map := (blocks.filter (fun b => b.blockType == "VALUE")).foldl
      (fun m b => dictInsert m b.id b.text) []
    let key_value_pairs :=
      (blocks.filter (fun b => b.blockType == "KEY_VALUE_SET")).foldl
        (fun kvp b =>
          match kvIdsOf b with
          | none => kvp
          | some (kId, vId) =>
            match dictGet key_map kId, dictGet value_map vId with
            | some k, some v =>
              if k ≠ "" ∧ v ≠ "" then dictInsert kvp k v else kvp
            | _, _ => kvp) []
    let entities := extractEntitiesFromText extracted_text
    let document_type := determineDocumentType extracted_text key_value_pairs
    let document_metadata : DocumentMetadata :=
      { document_type := some document_type,
        key_value_pairs := key_value_pairs,
        tables := [] }
    { content_type := "document",
      extracted_text := some extracted_text,
      entities := entities,
      categories := [document_type],
      document_data := some document_metadata }

/-- `MetadataExtractor._extract_document_metadata`, with the Textract
call's outcome passed in. -/
def extractDocumentMetadata (backend : Except PyExc TextractData) :
    Except PyExc FileMetadata :=
  match backend with
  | .error (.clientError _) => .ok { content_type := "document" }
  | .error (.otherError m) => .error (.otherError m)
  | .ok d => .ok (documentMetadataOf d)

/-- `MetadataExtractor.extract_metadata`: MIME dispatch wrapped in the
catch-all `try` that degrades any escaped exception to
`FileMetadata(content_type=mime_type)`.  Always returns a
`FileMetadata` — never raises. -/
def extract_metadata (imgBackend : Except PyExc RekognitionData)
    (docBackend : Except PyExc TextractData)
    (_file_bytes : List Nat) (mime_type : String) (_file_name : String) :
    FileMetadata :=
  let dispatched : Except PyExc FileMetadata :=
    if pyStartsWith mime_type "image/" then extractImageMetadata imgBackend
    else if pyStartsWith mime_type "application/pdf" then
      extractDocumentMetadata docBackend
    else if hasSub "document" mime_type || hasSub "spreadsheet" mime_type then
      extractDocumentMetadata docBackend
    else .ok { content_type := mime_type }
  match dispatched with
  | .ok m => m
  | .error _ => { content_type := mime_type }

/-- Metadata carrying only a content type — the degraded shape the
extractor falls back to. -/
def contentTypeOnly (ct : String) : FileMetadata := { content_type := ct }

/-! ## Quarantine handling (`CFM/virus_scan_lambda.py`, `handle_infected_file`)

The S3 copy/delete and SNS publish are external calls, modelled as
`Except` outcomes supplied by the environment.  The whole body sits in
one `try` whose `except` clause only logs, so the function never raises
to its caller; the embedding records which operations were attempted,
in order, and the exception that was swallowed, if any. -/

/-- The externally visible operations of `handle_infected_file`. -/
inductive QOp where
  | copy | delete | notify
  deriving DecidableEq, Repr

/-- Outcome of `handle_infected_file`: the operations attempted in
order, the exception caught and logged by the `except` clause (if any),
and whether an exception escaped to the caller. -/
structure QuarantineOutcome where
  attempted : List QOp
  loggedError : Option String
  raised : Bool
  deriving DecidableEq, Repr

/-- Python truthiness of an optional environment string (`None` and
`""` are falsy). -/
def pyTruthyStr : Option String → Bool
  | none => false
  | some s => s ≠ ""

/-- `handle_infected_file(bucket, key, scan_result)`.  `copyRes`,
`delRes` and `pubRes` are the outcomes of `s3.copy_object`,
`s3.delete_object` and `sns.publish` respectively; the first one to
raise jumps to the `except` clause, which logs and returns. -/
def handle_infected_file (quarantineBucket notificationTopic : Option String)
    (copyRes delRes pubRes : Except String Unit) : QuarantineOutcome :=
  if pyTruthyStr quarantineBucket then
    match copyRes with
    | .error e => { attempted := [.copy], loggedError := some e, raised := false }
    | .ok _ =>
      match delRes with
      | .error e =>
        { attempted := [.copy, .delete], loggedError := some e, raised := false }
      | .ok _ =>
        if pyTruthyStr notificationTopic then
          match pubRes with
          | .error e =>
            { attempted := [.copy, .delete, .notify], loggedError := some e,
              raised := false }
          | .ok _ =>
            { attempted := [.copy, .delete, .notify], loggedError := none,
              raised := false }
        else
          { attempted := [.copy, .delete], loggedError := none, raised := false }
  else
    if pyTruthyStr notificationTopic then
      match pubRes with
      | .error e => { attempted := [.notify], loggedError := some e, raised := false }
      | .ok _ => { attempted := [.notify], loggedError := none, raised := false }
    else
      { attempted := [], loggedError := none, raised := false }

/-! ## Search service (`search_service.py`)

Every score contribution is a multiple of `0.5` far below the range
where Python float addition loses exactness, so scores are modelled
with `ℚ`.  `datetime.fromisoformat` is an external library call,
modelled as a parsing oracle `parseTime` returning an abstract ordered
time (`none` models a raised `ValueError`/`TypeError`, in which case
the code substitutes `datetime.now()`). -/

/-- `SearchFilters` (times abstracted to `Int`). -/
structure SearchFilters where
  tags : List String := []
  categories : List String := []
  mime_types : List String := []
  uploaded_after : Option Int := none
  uploaded_before : Option Int := none
  min_size : Option Int := none
  max_size : Option Int := none

/-- `SearchService._calculate_relevance_score`. -/
def calcRelevanceScore (file : FileModel) (query : String) : ℚ :=
  if query = "" then 1
  else
    let query_lower := pyLower query
    let query_terms := pySplitWS query_lower
    let file_name_lower := pyLower file.name
    let s1 : ℚ := if hasSub query_lower file_name_lower then 10 else 0
    let s2 : ℚ := (query_terms.filter
      (fun term => hasSub term file_name_lower)).length * 5
    let s3 : ℚ := (file.tags.map (fun tag =>
      let tag_lower := pyLower tag
      (if hasSub query_lower tag_lower then (3 : ℚ) else 0) +
        (query_terms.filter (fun term => hasSub term tag_lower)).length *
          (3 / 2))).sum
    let s4 : ℚ := (file.metadata.categories.map (fun category =>
      let category_lower := pyLower category
      (if hasSub query_lower category_lower then (3 : ℚ) else 0) +
        (query_terms.filter (fun term => hasSub term category_lower)).length *
          (3 / 2))).sum
    let s5 : ℚ :=
      match file.metadata.extracted_text with
      | none => 0
      | some t =>
        -- Python: `if file.metadata.extracted_text:` — an empty string
        -- is falsy and is skipped like `None`.
        if t = "" then 0
        else
          let text_lower := pyLower t
          (countOccur query_lower text_lower : ℚ) * 2 +
            (query_terms.map (fun term =>
              (countOccur term text_lower : ℚ) * (1 / 2))).sum
    let s6 : ℚ := (file.metadata.entities.map (fun entity =>
      let entity_text_lower := pyLower entity.text
      (if hasSub query_lower entity_text_lower then (2 : ℚ) else 0) +
        (query_terms.filter
          (fun term => hasSub term entity_text_lower)).length * 1)).sum
    s1 + s2 + s3 + s4 + s5 + s6

/-- The ranking stage of `_filter_and_rank_results` (its last three
statements): score each surviving file, sort by score descending —
Python's `list.sort` is stable, and so is `List.mergeSort` — and drop
the scores. -/
def rankStage (files : List FileModel) (query : String) : List FileModel :=
  let scored_files := files.map (fun file => (file, calcRelevanceScore file query))
  let sorted := scored_files.mergeSort (fun x y => decide (y.2 ≤ x.2))
  sorted.map Prod.fst

/-- The date-window stage of `_filter_and_rank_results`.  `parseTime`
models `datetime.fromisoformat` (`none` = raises) and `now` models
`datetime.now()`. -/
def dateFilterStage (parseTime : String → Option Int) (now : Int)
    (filters : SearchFilters) (files : List FileModel) : List FileModel :=
  files.filter (fun file =>
    let upload_time := (parseTime file.uploaded_at).getD now
    (match filters.uploaded_after with
     | some a => decide (upload_time ≥ a)
     | none => true) &&
    (match filters.uploaded_before with
     | some b => decide (upload_time ≤ b)
     | none => true))

/-- The size-window stage of `_filter_and_rank_results`. -/
def sizeFilterStage (filters : SearchFilters) (files : List FileModel) :
    List FileModel :=
  files.filter (fun file =>
    (match filters.min_size with
     | some m => decide (file.size ≥ m)
     | none => true) &&
    (match filters.max_size with
     | some m => decide (file.size ≤ m)
     | none => true))

/-- The category stage of `_filter_and_rank_results`: applied only when
`filters.categories` is non-empty (Python truthiness of the list). -/
def categoryFilterStage (filters : SearchFilters) (files : List FileModel) :
    List FileModel :=
  if filters.categories.isEmpty then files
  else
    files.filter (fun file =>
      filters.categories.any (fun category =>
        (file.metadata.categories.map pyLower).contains (pyLower category)))

/-- `SearchService._filter_and_rank_results`. -/
def filterAndRankResults (parseTime : String → Option Int) (now : Int)
    (files : List FileModel) (query : String) (filters : SearchFilters) :
    List FileModel :=
  rankStage
    (categoryFilterStage filters
      (sizeFilterStage filters (dateFilterStage parseTime now filters files)))
    query

/-! ## Upload route (`api/routes.py`, `upload_file`)

The handler's collaborators (storage, metadata store, presigner) are
abstracted into an environment of successful results; the outcome
records whether the content-store `upload_file` call was made and which
record was saved, so that "no bytes stored" is provable.  `validate_file`
and `scan_file` are the embedded functions above, not abstractions. -/

/-- The HTTP responses the handler can produce. -/
inductive UploadResponse where
  | badRequest (error : String)
  | created (fileId objectKey versionId url : String)
  | serverError (error : String)
  deriving DecidableEq, Repr

/-- An incoming multipart request, as the handler reads it:
`contentType`/`contentLength` are the possibly-absent header fields
(Python falsy handling applies), `bytes` is what `file.read()` would
return. -/
structure UploadRequest where
  hasFilePart : Bool
  filename : String
  contentType : Option String := none
  contentLength : Option Int := none
  bytes : List Nat := []
  tagsForm : Option String := none

/-- The collaborators' successful results. -/
structure UploadEnv where
  objectKey : String := "k"
  versionId : String := "v"
  fileId : String := "id"
  presignedUrl : String := "u"
  extracted : FileMetadata := { content_type := "application/octet-stream" }

/-- What the handler did. -/
structure UploadOutcome where
  response : UploadResponse
  storeCalled : Bool
  savedRecord : Option FileModel
  deriving Repr

/-- Python `s.strip()` (ASCII whitespace). -/
def pyStrip (s : String) : String :=
  String.mk (((s.toList.dropWhile isPySpace).reverse.dropWhile isPySpace).reverse)

/-- Split a comma-separated list on `","`. -/
def splitCommas (s : String) : List String :=
  (go s.toList []).map (fun l => String.mk l.reverse)
where
  go : List Char → List Char → List (List Char)
    | [], acc => [acc]
    | c :: cs, acc => if c == ',' then acc :: go cs [] else go cs (c :: acc)

/-- `request.form.get("tags", "").split(",")` followed by
strip-and-drop-empty. -/
def parseTags (tagsForm : Option String) : List String :=
  ((splitCommas (tagsForm.getD "")).map pyStrip).filter (fun t => t ≠ "")

/-- `file.content_type or "application/octet-stream"` (Python `or`:
`None` and `""` both fall back). -/
def effectiveContentType (req : UploadRequest) : String :=
  match req.contentType with
  | some s => if s = "" then "application/octet-stream" else s
  | none => "application/octet-stream"

/-- `file.content_length or 0`: the size that is validated is the
declared content length, not the number of bytes read. -/
def declaredSize (req : UploadRequest) : Int :=
  match req.contentLength with
  | some n => n
  | none => 0

/-- The `POST /files` handler `upload_file`. -/
def upload_file (env : UploadEnv) (req : UploadRequest) : UploadOutcome :=
  if ¬ req.hasFilePart then
    { response := .badRequest "No file uploaded", storeCalled := false,
      savedRecord := none }
  else if req.filename = "" then
    { response := .badRequest "No file selected", storeCalled := false,
      savedRecord := none }
  else
    let file_name := req.filename
    let content_type := effectiveContentType req
    let file_size := declaredSize req
    let tags := parseTags req.tagsForm
    let validation_result := validate_file file_name file_size content_type
    if ¬ validation_result.is_valid then
      { response := .badRequest validation_result.message, storeCalled := false,
        savedRecord := none }
    else
      let file_bytes := req.bytes
      let scan_result := scan_file file_bytes
      if ¬ scan_result.is_clean then
        { response := .badRequest
            ("File contains malicious content: " ++ scan_result.message),
          storeCalled := false, savedRecord := none }
      else
        let file_model : FileModel :=
          { name := file_name,
            size := file_bytes.length,
            mime_type := content_type,
            path := env.objectKey,
            metadata := env.extracted,
            tags := tags }
        { response := .created env.fileId env.objectKey env.versionId
            env.presignedUrl,
          storeCalled := true,
          savedRecord := some file_model }

/-- The error string of a response, when it is a rejection. -/
def responseError : UploadResponse → Option String
  | .badRequest e => some e
  | .serverError e => some e
  | .created _ _ _ _ => none

/-- Is the response a 400-style rejection? -/
def isBadRequest : UploadResponse → Bool
  | .badRequest _ => true
  | _ => false

/-- 100 clean bytes followed by the bytes of `"VIRUS"` — the signature
entirely after offset 100. -/
def virusAfter100 : List Nat := List.replicate 100 65 ++ [86, 73, 82, 85, 83]

/-- A request whose declared MIME type is not allow-listed. -/
def rejectedReq : UploadRequest :=
  { hasFilePart := true, filename := "a.txt", contentType := some "bad/type",
    contentLength := some 0, bytes := [] }

/-- A small well-formed request with declared length 0 but three bytes
of payload. -/
def demoReq : UploadRequest :=
  { hasFilePart := true, filename := "a.txt", contentType := some "text/plain",
    contentLength := some 0, bytes := [65, 66, 67] }

/-- The single entity extracted from the text `"a@b.com"`. -/
def demoEntity : Entity :=
  { text := "a@b.com", type := .EMAIL, confidence := 9 / 10 }

/-- The first ranking-scenario file of the spec's test section. -/
def demoFileA : FileModel :=
  { name := "invoice_march.pdf", size := 10, mime_type := "application/pdf",
    path := "p1", metadata := { content_type := "application/pdf" },
    tags := ["finance"] }

/-- The second ranking-scenario file of the spec's test section. -/
def demoFileB : FileModel :=
  { name := "report_march.pdf", size := 10, mime_type := "application/pdf",
    path := "p2", metadata := { content_type := "application/pdf" },
    tags := [] }

/-! ## General lemmas -/

theorem append_ne_empty_left (a t : String) (h : a.length ≠ 0) :
    a ++ t ≠ "" := by
  intro heq
  have hl := congrArg String.length heq
  rw [String.length_append] at hl
  have h0 : ("" : String).length = 0 := rfl
  rw [h0] at hl
  exact h (Nat.eq_zero_of_add_eq_zero_right hl)

theorem validate_message_nonempty (n : String) (s : Int) (m : String)
    (h : (validate_file n s m).is_valid = false) :
    (validate_file n s m).message ≠ "" := by
  unfold validate_file at h ⊢
  split_ifs at h ⊢ with h1 h2 h3
  · show ("File size exceeds maximum allowed (5GB)" : String) ≠ ""
    decide
  · show ("File extension not allowed: ." ++ fileExtension n : String) ≠ ""
    exact append_ne_empty_left _ _ (by decide)
  · show ("File type not allowed: " ++ m : String) ≠ ""
    exact append_ne_empty_left _ _ (by decide)


theorem takeWhile_append_cons {p : Char → Bool} (xs : List Char) (y : Char)
    (ys : List Char) (hxs : ∀ x ∈ xs, p x = true) (hy : p y = false) :
    (xs ++ y :: ys).takeWhile p = xs := by
  induction xs with
  | nil => simp [List.takeWhile_cons, hy]
  | cons a as ih =>
    have ha := hxs a (List.mem_cons_self a as)
    simp [List.takeWhile_cons, ha]
    exact ih (fun x hx => hxs x (List.mem_cons_of_mem a hx))

theorem subMatch_suffix (n l2 : List Char) (h : subMatch n l2 = true)
    (l1 : List Char) : subMatch n (l1 ++ l2) = true := by
  induction l1 with
  | nil => simpa using h
  | cons c cs ih =>
    show subMatch n (c :: (cs ++ l2)) = true
    simp only [subMatch, Bool.or_eq_true]
    exact Or.inr ih

theorem denylisted_dotfree (e : String)
    (h : SUSPICIOUS_EXTENSIONS.contains (pyLower e) = true) :
    ∀ c ∈ e.toList, c ≠ '.' := by
  intro c hc heq
  subst heq
  have hdot : '.' ∈ (pyLower e).toList :=
    List.mem_map.mpr ⟨'.', hc, by decide⟩
  have hmem : pyLower e ∈ SUSPICIOUS_EXTENSIONS := by simpa using h
  simp only [SUSPICIOUS_EXTENSIONS, List.mem_cons, List.not_mem_nil,
    or_false] at hmem
  rcases hmem with h1|h1|h1|h1|h1|h1|h1|h1|h1|h1|h1 <;>
    (rw [h1] at hdot; revert hdot; decide)

theorem fileExtension_append (base e : String)
    (he : ∀ c ∈ e.toList, c ≠ '.') :
    fileExtension (base ++ "." ++ e) = pyLower e := by
  have hdata : (base ++ "." ++ e).toList = base.toList ++ '.' :: e.toList := by
    show (base ++ "." ++ e).data = base.data ++ '.' :: e.data
    simp [String.data_append]
  have hsub : hasSub "." (base ++ "." ++ e) = true := by
    unfold hasSub
    rw [hdata]
    apply subMatch_suffix
    show subMatch ['.'] ('.' :: e.toList) = true
    simp [subMatch, headMatch]
  have hafter : afterLastDot (base ++ "." ++ e) = e := by
    unfold afterLastDot
    rw [hdata]
    have hrev : (base.toList ++ '.' :: e.toList).reverse =
        e.toList.reverse ++ '.' :: base.toList.reverse := by
      simp
    rw [hrev, takeWhile_append_cons _ _ _ ?_ (by decide)]
    · simp [String.mk]
    · intro x hx
      have := he x (List.mem_reverse.mp hx)
      simpa using this
  unfold fileExtension
  rw [hsub, hafter]
  simp

theorem validate_size_iff_cex :
    (validate_file "a.txt" 0 "bad/type").is_valid = false ∧
      ¬ ((0 : Int) > MAX_FILE_SIZE) := by
  constructor
  · decide
  · decide

theorem validate_size_amended (name : String) (s : Int) (mime : String) :
    (s > MAX_FILE_SIZE → (validate_file name s mime).is_valid = false) ∧
    (ALLOWED_MIME_TYPES.contains mime = true →
      SUSPICIOUS_EXTENSIONS.contains (fileExtension name) = false →
      ((validate_file name s mime).is_valid = false ↔ s > MAX_FILE_SIZE)) := by
  constructor
  · intro h
    simp [validate_file, h]
  · intro hm he
    have hm2 : mime ∈ ALLOWED_MIME_TYPES := by simpa using hm
    have he2 : fileExtension name ∉ SUSPICIOUS_EXTENSIONS := by
      simpa using he
    by_cases hs : s > MAX_FILE_SIZE
    · simp [validate_file, hs]
    · simp [validate_file, hs, hm2, he2]

theorem validate_size_amended_witness :
    (validate_file "report.txt" (MAX_FILE_SIZE + 1) "text/plain").is_valid
        = false ∧
    ((validate_file "report.txt" 0 "text/plain").is_valid = false ↔
      (0 : Int) > MAX_FILE_SIZE) :=
  ⟨(validate_size_amended "report.txt" (MAX_FILE_SIZE + 1) "text/plain").1
      (by decide),
   (validate_size_amended "report.txt" 0 "text/plain").2 (by decide)
      (by decide)⟩

theorem validate_extension_denylist :
    (∀ (e base : String) (s : Int) (mime : String),
        SUSPICIOUS_EXTENSIONS.contains (pyLower e) = true →
        (validate_file (base ++ "." ++ e) s mime).is_valid = false) ∧
    (∀ (name : String) (s : Int) (mime : String),
        hasSub "." name = false →
        fileExtension name = "" ∧
        SUSPICIOUS_EXTENSIONS.contains "" = false ∧
        (¬ s > MAX_FILE_SIZE → ALLOWED_MIME_TYPES.contains mime = true →
          (validate_file name s mime).is_valid = true)) := by
  constructor
  · intro e base s mime hmem
    have hcont : SUSPICIOUS_EXTENSIONS.contains
        (fileExtension (base ++ "." ++ e)) = true := by
      rw [fileExtension_append base e (denylisted_dotfree e hmem)]
      exact hmem
    unfold validate_file
    split_ifs <;> simp_all
  · intro name s mime hnd
    have hExt : fileExtension name = "" := by
      unfold fileExtension
      rw [hnd]
      simp
    have hm2 : ∀ m2 : String, ALLOWED_MIME_TYPES.contains m2 = true → m2 ∈ ALLOWED_MIME_TYPES := by
      intro m2 hc; simpa using hc
    refine ⟨hExt, by decide, ?_⟩
    intro hs hm
    have hnm : ("" : String) ∉ SUSPICIOUS_EXTENSIONS := by decide
    simp [validate_file, hs, hm2 mime hm, hExt, hnm]

theorem validate_extension_denylist_witness :
    (validate_file ("malware" ++ "." ++ "ExE") 0 "text/plain").is_valid
        = false ∧
    fileExtension "README" = "" ∧
    (validate_file "README" 0 "text/plain").is_valid = true :=
  ⟨validate_extension_denylist.1 "ExE" "malware" 0 "text/plain" (by decide),
   (validate_extension_denylist.2 "README" 0 "text/plain" (by decide)).1,
   (validate_extension_denylist.2 "README" 0 "text/plain" (by decide)).2.2
      (by decide) (by decide)⟩

theorem scan_file_fail_closed (e : String) :
    (scan_file_try (.error e)).is_clean = false ∧
    (scan_file_try (.error e)).threats ≠ [] := by
  exact ⟨rfl, by simp [scan_file_try]⟩

theorem scan_file_first_100 (bs : List Nat)
    (h : hasSub "VIRUS" (utf8DecodeIgnore (bs.take 100)) = false) :
    (scan_file bs).is_clean = true := by
  simp [scan_file, scan_file_try, h]

theorem scan_file_first_100_witness :
    hasSub "VIRUS" (utf8DecodeIgnore (virusAfter100.take 100)) = false ∧
    hasSub "VIRUS" (utf8DecodeIgnore virusAfter100) = true ∧
    (scan_file virusAfter100).is_clean = true :=
  ⟨by decide, by decide, scan_file_first_100 virusAfter100 (by decide)⟩

/-- C1: in the synchronous upload path, a failed validation or a
non-clean scan verdict yields a 400 rejection carrying a non-empty
reason and the content store is never invoked; conversely the store is
invoked only after validation passed and the verdict was clean. -/
theorem upload_rejects_unclean (env : UploadEnv) (req : UploadRequest) :
    (((validate_file req.filename (declaredSize req)
          (effectiveContentType req)).is_valid = false ∨
        (scan_file req.bytes).is_clean = false) →
      isBadRequest (upload_file env req).response = true ∧
      (∃ e, responseError (upload_file env req).response = some e ∧ e ≠ "") ∧
      (upload_file env req).storeCalled = false) ∧
    ((upload_file env req).storeCalled = true →
      (validate_file req.filename (declaredSize req)
          (effectiveContentType req)).is_valid = true ∧
      (scan_file req.bytes).is_clean = true) := by
  by_cases hA : req.hasFilePart
  · by_cases hB : req.filename = ""
    · constructor
      · intro _
        refine ⟨?_, ⟨"No file selected", ?_, by decide⟩, ?_⟩ <;>
          simp [upload_file, hA, hB, isBadRequest, responseError]
      · intro hs
        exfalso
        simp [upload_file, hA, hB] at hs
    · cases hV : (validate_file req.filename (declaredSize req)
          (effectiveContentType req)).is_valid
      · constructor
        · intro _
          refine ⟨?_, ⟨(validate_file req.filename (declaredSize req)
              (effectiveContentType req)).message,
                ?_, validate_message_nonempty _ _ _ hV⟩, ?_⟩ <;>
            simp [upload_file, hA, hB, hV, isBadRequest, responseError]
        · intro hs
          exfalso
          simp [upload_file, hA, hB, hV] at hs
      · cases hS : (scan_file req.bytes).is_clean
        · constructor
          · intro _
            refine ⟨?_, ⟨"File contains malicious content: " ++
                (scan_file req.bytes).message, ?_,
                  append_ne_empty_left _ _ (by decide)⟩, ?_⟩ <;>
              simp [upload_file, hA, hB, hV, hS, isBadRequest, responseError]
          · intro hs
            exfalso
            simp [upload_file, hA, hB, hV, hS] at hs
        · constructor
          · intro h
            rcases h with h | h <;> exact absurd h (by simp)
          · intro _
            exact ⟨rfl, rfl⟩
  · constructor
    · intro _
      refine ⟨?_, ⟨"No file uploaded", ?_, by decide⟩, ?_⟩ <;>
        simp [upload_file, hA, isBadRequest, responseError]
    · intro hs
      exfalso
      simp [upload_file, hA] at hs

/-- C1 witness: a request with a non-allow-listed MIME type is rejected
with a 400 and nothing is stored. -/
theorem upload_rejects_unclean_witness :
    isBadRequest (upload_file {} rejectedReq).response = true ∧
    (upload_file {} rejectedReq).storeCalled = false :=
  ⟨((upload_rejects_unclean {} rejectedReq).1 (Or.inl (by decide))).1,
   ((upload_rejects_unclean {} rejectedReq).1 (Or.inl (by decide))).2.2⟩

/-- C10: the upload handler validates the declared content length
(0 when absent) — the validation outcome is independent of the payload
bytes, and a declared size within the bound can only be rejected for
MIME type or extension — while the saved record's `size` is the actual
byte count, which can exceed the declared (validated) value, as the
final existential exhibits. -/
theorem upload_size_check_on_declared (env : UploadEnv) (req : UploadRequest) :
    (∀ b2 : List Nat, declaredSize { req with bytes := b2 } = declaredSize req) ∧
    (declaredSize req ≤ MAX_FILE_SIZE →
      (validate_file req.filename (declaredSize req)
          (effectiveContentType req)).is_valid = false →
      ALLOWED_MIME_TYPES.contains (effectiveContentType req) = false ∨
        SUSPICIOUS_EXTENSIONS.contains (fileExtension req.filename) = true) ∧
    (∀ m, (upload_file env req).savedRecord = some m →
      m.size = (req.bytes.length : Int)) ∧
    (∃ (env2 : UploadEnv) (req2 : UploadRequest) (m : FileModel),
      declaredSize req2 ≤ MAX_FILE_SIZE ∧
      (upload_file env2 req2).savedRecord = some m ∧
      m.size > declaredSize req2) := by
  refine ⟨fun b2 => rfl, ?_, ?_, ?_⟩
  · intro hle hrej
    unfold validate_file at hrej
    split_ifs at hrej with h1 h2 h3
    · omega
    · right
      exact h3
    · left
      simpa using h2
  · intro m hm
    by_cases hA : req.hasFilePart
    · by_cases hB : req.filename = ""
      · simp [upload_file, hA, hB] at hm
      · cases hV : (validate_file req.filename (declaredSize req)
            (effectiveContentType req)).is_valid
        · simp [upload_file, hA, hB, hV] at hm
        · cases hS : (scan_file req.bytes).is_clean
          · simp [upload_file, hA, hB, hV, hS] at hm
          · simp [upload_file, hA, hB, hV, hS] at hm
            rw [← hm]
    · simp [upload_file, hA] at hm
  · exact ⟨{}, demoReq,
      { name := "a.txt", size := 3, mime_type := "text/plain", path := "k",
        metadata := { content_type := "application/octet-stream" },
        tags := [] },
      by decide, by decide, by decide⟩

/-- C10 witness: the theorem applied to the concrete request with
declared length 0 and three payload bytes. -/
theorem upload_size_check_on_declared_witness :
    ((validate_file demoReq.filename (declaredSize demoReq)
        (effectiveContentType demoReq)).is_valid = false →
      ALLOWED_MIME_TYPES.contains (effectiveContentType demoReq) = false ∨
        SUSPICIOUS_EXTENSIONS.contains (fileExtension demoReq.filename)
          = true) ∧
    (∀ m, (upload_file {} demoReq).savedRecord = some m →
      m.size = (demoReq.bytes.length : Int)) :=
  ⟨(upload_size_check_on_declared {} demoReq).2.1 (by decide),
   (upload_size_check_on_declared {} demoReq).2.2.1⟩

/-- C3 counterexample: when the quarantine copy raises, the delete is
never attempted — the pair short-circuits — and the exception is only
logged (`raised = false`), not reported. -/
theorem handle_infected_cex :
    (handle_infected_file (some "quarantine") (some "topic")
      (.error "copy failed") (.ok ()) (.ok ())).attempted = [QOp.copy] ∧
    QOp.delete ∉ (handle_infected_file (some "quarantine") (some "topic")
      (.error "copy failed") (.ok ()) (.ok ())).attempted ∧
    (handle_infected_file (some "quarantine") (some "topic")
      (.error "copy failed") (.ok ()) (.ok ())).loggedError
        = some "copy failed" ∧
    (handle_infected_file (some "quarantine") (some "topic")
      (.error "copy failed") (.ok ()) (.ok ())).raised = false := by
  refine ⟨by decide, by decide, by decide, by decide⟩

/-- C3 (amended): `handle_infected_file` never raises to its caller;
with a quarantine bucket configured, a failing copy short-circuits (the
delete is not attempted and the exception is logged and swallowed),
while after a successful copy the delete is attempted as well. -/
theorem handle_infected_amended (qb nt : Option String)
    (c d p : Except String Unit) :
    (handle_infected_file qb nt c d p).raised = false ∧
    (pyTruthyStr qb = true →
      ((∀ e, c = .error e →
        (handle_infected_file qb nt c d p).attempted = [QOp.copy] ∧
        (handle_infected_file qb nt c d p).loggedError = some e) ∧
      (c = .ok () →
        QOp.copy ∈ (handle_infected_file qb nt c d p).attempted ∧
        QOp.delete ∈ (handle_infected_file qb nt c d p).attempted))) := by
  unfold handle_infected_file
  by_cases hq : pyTruthyStr qb = true
  · rcases c with e | u
    · simp [hq]
    · cases u
      rcases d with e | u2
      · simp [hq]
      · cases u2
        by_cases hn : pyTruthyStr nt = true
        · rcases p with e | u3
          · simp [hq, hn]
          · simp [hq, hn]
        · simp [hq, hn]
  · simp [hq]
    by_cases hn : pyTruthyStr nt = true
    · rcases p with e | u3
      · simp [hn]
      · simp [hn]
    · simp [hn]

/-- C3 witness: the amended theorem applied at concrete outcomes for a
failing copy, an all-clean run, and a failing delete. -/
theorem handle_infected_amended_witness :
    (handle_infected_file (some "q") (some "t") (.error "boom") (.ok ())
      (.ok ())).attempted = [QOp.copy] ∧
    QOp.copy ∈ (handle_infected_file (some "q") (some "t") (.ok ()) (.ok ())
      (.ok ())).attempted ∧
    QOp.delete ∈ (handle_infected_file (some "q") (some "t") (.ok ())
      (.error "late") (.ok ())).attempted :=
  ⟨((handle_infected_amended (some "q") (some "t") (.error "boom") (.ok ())
      (.ok ())).2 (by decide)).1 "boom" rfl |>.1,
   ((handle_infected_amended (some "q") (some "t") (.ok ()) (.ok ())
      (.ok ())).2 (by decide)).2 rfl |>.1,
   ((handle_infected_amended (some "q") (some "t") (.ok ()) (.error "late")
      (.ok ())).2 (by decide)).2 rfl |>.2⟩

/-- C4 counterexample: a `ClientError` in the image pipeline degrades
to content type `"image"`, not to the raw MIME type `"image/png"` — the
degraded metadata is content-type-only but does not carry the raw
content type. -/
theorem extract_metadata_cex :
    extract_metadata (.error (.clientError "x")) (.ok {}) [] "image/png" "p.png"
      = contentTypeOnly "image" ∧
    extract_metadata (.error (.clientError "x")) (.ok {}) [] "image/png" "p.png"
      ≠ contentTypeOnly "image/png" := by
  exact ⟨by decide, by decide⟩

/-- C4 (amended): `extract_metadata` is total (never raises) and
dispatches by MIME type exactly as claimed; any backend error degrades
to content-type-only metadata, but with content type `"image"` (resp.
`"document"`) when a `ClientError` is caught inside the image (resp.
document) pipeline, and the raw MIME type only for other exceptions,
which are caught by the top-level handler. -/
theorem extract_metadata_amended
    (imgB : Except PyExc RekognitionData) (docB : Except PyExc TextractData)
    (bs : List Nat) (mime fname : String) :
    (pyStartsWith mime "image/" = false →
      pyStartsWith mime "application/pdf" = false →
      hasSub "document" mime = false → hasSub "spreadsheet" mime = false →
      extract_metadata imgB docB bs mime fname = contentTypeOnly mime) ∧
    (pyStartsWith mime "image/" = true →
      (∀ m, imgB = .error (.clientError m) →
        extract_metadata imgB docB bs mime fname = contentTypeOnly "image") ∧
      (∀ m, imgB = .error (.otherError m) →
        extract_metadata imgB docB bs mime fname = contentTypeOnly mime) ∧
      (∀ d, imgB = .ok d →
        extract_metadata imgB docB bs mime fname = imageMetadataOf d)) ∧
    (pyStartsWith mime "image/" = false →
      (pyStartsWith mime "application/pdf" = true ∨
        hasSub "document" mime = true ∨ hasSub "spreadsheet" mime = true) →
      (∀ m, docB = .error (.clientError m) →
        extract_metadata imgB docB bs mime fname = contentTypeOnly "document") ∧
      (∀ m, docB = .error (.otherError m) →
        extract_metadata imgB docB bs mime fname = contentTypeOnly mime) ∧
      (∀ d, docB = .ok d →
        extract_metadata imgB docB bs mime fname = documentMetadataOf d)) := by
  refine ⟨?_, ?_, ?_⟩
  · intro h1 h2 h3 h4
    simp [extract_metadata, h1, h2, h3, h4, contentTypeOnly]
  · intro h1
    refine ⟨?_, ?_, ?_⟩ <;> intro x hx <;>
      simp [extract_metadata, h1, hx, extractImageMetadata, contentTypeOnly]
  · intro h1 h2
    have hdoc : extract_metadata imgB docB bs mime fname =
        match extractDocumentMetadata docB with
        | .ok m => m
        | .error _ => { content_type := mime } := by
      rcases h2 with h2 | h2 | h2
      · simp [extract_metadata, h1, h2]
      · by_cases hp : pyStartsWith mime "application/pdf" = true
        · simp [extract_metadata, h1, hp]
        · simp [extract_metadata, h1, hp, h2]
      · by_cases hp : pyStartsWith mime "application/pdf" = true
        · simp [extract_metadata, h1, hp]
        · by_cases hd : hasSub "document" mime = true
          · simp [extract_metadata, h1, hp, hd]
          · simp [extract_metadata, h1, hp, hd, h2]
    refine ⟨?_, ?_, ?_⟩ <;> intro x hx <;>
      rw [hdoc] <;> simp [hx, extractDocumentMetadata, contentTypeOnly]

/-- C4 witness: the amended theorem applied at each dispatch/error
combination. -/
theorem extract_metadata_amended_witness :
    extract_metadata (.ok {}) (.ok {}) [] "text/plain" "a.txt"
        = contentTypeOnly "text/plain" ∧
    extract_metadata (.error (.otherError "x")) (.ok {}) [] "image/png" "p.png"
        = contentTypeOnly "image/png" ∧
    extract_metadata (.ok {}) (.error (.clientError "x")) [] "application/pdf"
        "d.pdf" = contentTypeOnly "document" ∧
    extract_metadata (.ok {}) (.ok {}) [] "image/png" "p.png"
        = imageMetadataOf {} :=
  ⟨(extract_metadata_amended (.ok {}) (.ok {}) [] "text/plain" "a.txt").1
      (by decide) (by decide) (by decide) (by decide),
   ((extract_metadata_amended (.error (.otherError "x")) (.ok {}) []
      "image/png" "p.png").2.1 (by decide)).2.1 "x" rfl,
   ((extract_metadata_amended (.ok {}) (.error (.clientError "x")) []
      "application/pdf" "d.pdf").2.2 (by decide) (Or.inl (by decide))).1 "x" rfl,
   ((extract_metadata_amended (.ok {}) (.ok {}) [] "image/png" "p.png").2.1
      (by decide)).2.2 {} rfl⟩

/-- C7: every extracted entity carries the fixed confidence constant of
its type (EMAIL 0.9, PHONE_NUMBER 0.8, URL 0.9, DATE 0.7); the claimed
scenario text yields exactly the one EMAIL, one PHONE_NUMBER and one
DATE entity and nothing else; and duplicate matches are kept, one
entity per match. -/
theorem extract_entities_spec :
    (∀ (text : String) (ent : Entity), ent ∈ extractEntitiesFromText text →
      ((ent.type = .EMAIL ∧ ent.confidence = 9 / 10) ∨
       (ent.type = .PHONE_NUMBER ∧ ent.confidence = 8 / 10) ∨
       (ent.type = .URL ∧ ent.confidence = 9 / 10) ∨
       (ent.type = .DATE ∧ ent.confidence = 7 / 10))) ∧
    extractEntitiesFromText
        "Contact me at a@b.com or call 1234567890 on 12/05/2024" =
      [{ text := "a@b.com", type := .EMAIL, confidence := 9 / 10 },
       { text := "1234567890", type := .PHONE_NUMBER, confidence := 8 / 10 },
       { text := "12/05/2024", type := .DATE, confidence := 7 / 10 }] ∧
    extractEntitiesFromText "a@b.com a@b.com" =
      [{ text := "a@b.com", type := .EMAIL, confidence := 9 / 10 },
       { text := "a@b.com", type := .EMAIL, confidence := 9 / 10 }] := by
  refine ⟨?_, rfl, rfl⟩
  intro text ent h
  simp only [extractEntitiesFromText] at h
  rcases List.mem_append.mp h with h123 | h4
  · rcases List.mem_append.mp h123 with h12 | h3
    · rcases List.mem_append.mp h12 with h1 | h2
      · obtain ⟨m, -, rfl⟩ := List.mem_map.mp h1
        exact Or.inl ⟨rfl, rfl⟩
      · obtain ⟨m, -, rfl⟩ := List.mem_map.mp h2
        exact Or.inr (Or.inl ⟨rfl, rfl⟩)
    · obtain ⟨m, -, rfl⟩ := List.mem_map.mp h3
      exact Or.inr (Or.inr (Or.inl ⟨rfl, rfl⟩))
  · obtain ⟨m, -, rfl⟩ := List.mem_map.mp h4
    exact Or.inr (Or.inr (Or.inr ⟨rfl, rfl⟩))

/-- C7 witness: the confidence-constant clause applied to the entity
extracted from `"a@b.com"`. -/
theorem extract_entities_spec_witness :
    (demoEntity.type = .EMAIL ∧ demoEntity.confidence = 9 / 10) ∨
    (demoEntity.type = .PHONE_NUMBER ∧ demoEntity.confidence = 8 / 10) ∨
    (demoEntity.type = .URL ∧ demoEntity.confidence = 9 / 10) ∨
    (demoEntity.type = .DATE ∧ demoEntity.confidence = 7 / 10) :=
  extract_entities_spec.1 "a@b.com" demoEntity
    (by rw [show extractEntitiesFromText "a@b.com" = [demoEntity] from rfl]
        exact List.mem_singleton_self demoEntity)

/-- The scored-pair comparison used by the ranking sort is transitive. -/
theorem scoredLe_trans (a b c : FileModel × ℚ)
    (h1 : decide (b.2 ≤ a.2) = true) (h2 : decide (c.2 ≤ b.2) = true) :
    decide (c.2 ≤ a.2) = true := by
  simp only [decide_eq_true_eq] at *
  exact le_trans h2 h1

/-- The scored-pair comparison is total. -/
theorem scoredLe_total (a b : FileModel × ℚ) :
    (decide (b.2 ≤ a.2) || decide (a.2 ≤ b.2)) = true := by
  simp only [Bool.or_eq_true, decide_eq_true_eq]
  exact le_total b.2 a.2

/-- Stability of `mergeSort` on an equivalence class of the order:
filtering by a predicate that selects mutually `le`-equivalent elements
commutes with sorting, so such elements keep their input order. -/
theorem mergeSort_filter_class {α : Type} (le : α → α → Bool)
    (htrans : ∀ a b c, le a b = true → le b c = true → le a c = true)
    (htotal : ∀ a b, (le a b || le b a) = true)
    (l : List α) (q : α → Bool)
    (hq : ∀ a ∈ l, ∀ b ∈ l, q a = true → q b = true → le a b = true) :
    (l.mergeSort le).filter q = l.filter q := by
  have hsub : (l.filter q).Sublist l := List.filter_sublist l
  have hpw : List.Pairwise (fun a b => le a b = true) (l.filter q) := by
    apply List.pairwise_of_forall_mem_list
    intro a ha b hb
    exact hq a (List.mem_filter.mp ha).1 b (List.mem_filter.mp hb).1
      (List.mem_filter.mp ha).2 (List.mem_filter.mp hb).2
  have h3 : (l.filter q).Sublist (l.mergeSort le) :=
    List.sublist_mergeSort htrans htotal hpw hsub
  have h4 : ((l.mergeSort le).filter q).Perm (l.filter q) :=
    (List.mergeSort_perm l le).filter q
  have h5 : (l.filter q).Sublist ((l.mergeSort le).filter q) := by
    have h6 := h3.filter q
    have h7 : (l.filter q).filter q = l.filter q := by
      rw [List.filter_filter]
      simp
    rwa [h7] at h6
  exact (h5.eq_of_length h4.length_eq.symm).symm

/-- C8: with an empty query every record scores exactly 1 and the
ranking stage returns the input order; in general the returned list is
ordered by descending relevance score and, for every score value, the
records carrying that score appear in their input (insertion) order —
the stable-sort tie-break. -/
theorem rank_results_spec (files : List FileModel) (query : String) :
    (query = "" →
      (∀ f ∈ files, calcRelevanceScore f query = 1) ∧
      rankStage files query = files) ∧
    List.Pairwise
      (fun a b => calcRelevanceScore b query ≤ calcRelevanceScore a query)
      (rankStage files query) ∧
    (∀ v : ℚ,
      (rankStage files query).filter
          (fun f => decide (calcRelevanceScore f query = v)) =
        files.filter (fun f => decide (calcRelevanceScore f query = v))) := by
  refine ⟨?_, ?_, ?_⟩
  · rintro rfl
    constructor
    · intro f _
      simp [calcRelevanceScore]
    · show List.map Prod.fst
        ((files.map (fun f => (f, calcRelevanceScore f ""))).mergeSort
          (fun x y => decide (y.2 ≤ x.2))) = files
      rw [List.mergeSort_of_sorted]
      · rw [List.map_map,
          show (Prod.fst ∘ fun f : FileModel => (f, calcRelevanceScore f ""))
            = id from rfl, List.map_id]
      · apply List.pairwise_of_forall_mem_list
        intro a ha b hb
        obtain ⟨fa, -, rfl⟩ := List.mem_map.mp ha
        obtain ⟨fb, -, rfl⟩ := List.mem_map.mp hb
        simp [calcRelevanceScore]
  · unfold rankStage
    rw [List.pairwise_map]
    refine List.Pairwise.imp_of_mem ?_
      (List.sorted_mergeSort scoredLe_trans scoredLe_total
        (files.map (fun f => (f, calcRelevanceScore f query))))
    intro a b ha hb hab
    obtain ⟨fa, -, rfl⟩ := List.mem_map.mp (List.mem_mergeSort.mp ha)
    obtain ⟨fb, -, rfl⟩ := List.mem_map.mp (List.mem_mergeSort.mp hb)
    simpa using hab
  · intro v
    have hq : ∀ a ∈ files.map (fun f => (f, calcRelevanceScore f query)),
        ∀ b ∈ files.map (fun f => (f, calcRelevanceScore f query)),
        ((fun f => decide (calcRelevanceScore f query = v)) ∘ Prod.fst) a
            = true →
        ((fun f => decide (calcRelevanceScore f query = v)) ∘ Prod.fst) b
            = true →
        decide (b.2 ≤ a.2) = true := by
      intro a ha b hb h1 h2
      obtain ⟨fa, -, rfl⟩ := List.mem_map.mp ha
      obtain ⟨fb, -, rfl⟩ := List.mem_map.mp hb
      simp only [Function.comp, decide_eq_true_eq] at h1 h2 ⊢
      rw [h1, h2]
    have hcls := mergeSort_filter_class
      (fun x y : FileModel × ℚ => decide (y.2 ≤ x.2))
      scoredLe_trans scoredLe_total
      (files.map (fun f => (f, calcRelevanceScore f query)))
      ((fun f => decide (calcRelevanceScore f query = v)) ∘ Prod.fst) hq
    have h1 := List.filter_map (p := fun f =>
        decide (calcRelevanceScore f query = v)) Prod.fst
      ((files.map (fun f => (f, calcRelevanceScore f query))).mergeSort
        (fun x y => decide (y.2 ≤ x.2)))
    have h2 := List.filter_map (p := fun f =>
        decide (calcRelevanceScore f query = v)) Prod.fst
      (files.map (fun f => (f, calcRelevanceScore f query)))
    have h4 : List.map Prod.fst
        (files.map (fun f => (f, calcRelevanceScore f query))) = files := by
      rw [List.map_map,
        show (Prod.fst ∘ fun f : FileModel => (f, calcRelevanceScore f query))
          = id from rfl, List.map_id]
    show List.filter (fun f => decide (calcRelevanceScore f query = v))
        (List.map Prod.fst
          ((files.map (fun f => (f, calcRelevanceScore f query))).mergeSort
            (fun x y => decide (y.2 ≤ x.2)))) =
      List.filter (fun f => decide (calcRelevanceScore f query = v)) files
    rw [h1, hcls, ← h2, h4]

/-- C8 witness: the theorem applied to the spec's ranking-scenario
files, for the empty query and for `"march"`. -/
theorem rank_results_spec_witness :
    calcRelevanceScore demoFileA "" = 1 ∧
    rankStage [demoFileA, demoFileB] "" = [demoFileA, demoFileB] ∧
    List.Pairwise
      (fun a b => calcRelevanceScore b "march" ≤ calcRelevanceScore a "march")
      (rankStage [demoFileA, demoFileB] "march") :=
  ⟨((rank_results_spec [demoFileA, demoFileB] "").1 rfl).1 demoFileA (by simp),
   ((rank_results_spec [demoFileA, demoFileB] "").1 rfl).2,
   (rank_results_spec [demoFileA, demoFileB] "march").2.1⟩

end CFM
